import Mathlib

/-!
Verification of the retrieval pipeline of the yandexgpt_api_interaction
repository (rag_day_16/text_to_embedding.py, rag_day_17/rag_classes.py,
rag_day_18/rag_request_with_relevance.py) against its specification.

Modelling conventions:
* Python strings are `List Char` (for the chunker, which indexes by character)
  or `String` (for opaque payloads such as prompts and chunk texts).
* Python floats are modelled as exact rationals `ℚ`.
* Python exceptions are modelled with `Except`: external services are
  parameters of type `String → Except SvcErr …`, and code that does not catch
  an exception returns the corresponding `Except.error`.
* The `while` loop of `split_text_into_chunks` is not structurally recursive
  (and, as proved below, does not terminate on some inputs), so it is modelled
  with explicit fuel: `none` means the loop has not finished within the given
  fuel, and the divergence theorem shows `none` for every amount of fuel.
-/

/-! ### Chunker: `YandexDocumentIndexer.split_text_into_chunks` (rag_day_16) -/

/-- Characters matched by the regex class `\s` used in
`re.sub(r'\s+', ' ', text)` (ASCII part, which covers the texts modelled
here). -/
def isPyWhitespace (c : Char) : Bool :=
  c = ' ' ∨ c = '\t' ∨ c = '\n' ∨ c = '\r' ∨ c = '\x0b' ∨ c = '\x0c'

/-- Replace every whitespace character by a plain space (first half of
collapsing a whitespace run to one space). -/
def wsToSpace (s : List Char) : List Char :=
  s.map (fun c => if isPyWhitespace c then ' ' else c)

/-- Collapse consecutive spaces to a single space (second half of
`re.sub(r'\s+', ' ', text)` after `wsToSpace`). -/
def squeezeSpaces : List Char → List Char
  | [] => []
  | [c] => [c]
  | a :: b :: rest =>
    if a = ' ' ∧ b = ' ' then squeezeSpaces (b :: rest)
    else a :: squeezeSpaces (b :: rest)

/-- Python `str.strip()`: drop leading and trailing whitespace. -/
def pyStrip (s : List Char) : List Char :=
  ((s.dropWhile isPyWhitespace).reverse.dropWhile isPyWhitespace).reverse

/-- The text normalisation `re.sub(r'\s+', ' ', text).strip()` performed at
the top of `split_text_into_chunks`. -/
def normalizeText (s : List Char) : List Char :=
  pyStrip (squeezeSpaces (wsToSpace s))

/-- Python index normalisation for `str.rfind(sub, start, end)` and slices:
a negative index counts from the end (clamped at 0), an index past the end is
clamped to the length. -/
def pyNorm (len : ℕ) (i : ℤ) : ℕ :=
  if i < 0 then (len + i).toNat else min i.toNat len

/-- Whether `sub` occurs in `t` starting at position `i`. -/
def matchesAt (t sub : List Char) (i : ℕ) : Bool :=
  decide ((t.drop i).take sub.length = sub)

/-- Python `t.rfind(sub, s, e)`: the largest index `i` with
`s ≤ i`, `i + sub.length ≤ e` and `sub` occurring at `i`; `-1` if there is
none.  Indices are normalised like slice indices. -/
def pyRfind (t sub : List Char) (s e : ℤ) : ℤ :=
  let s' := pyNorm t.length s
  let e' := pyNorm t.length e
  let hits := (List.range (e' + 1)).filter
    (fun i => decide (s' ≤ i) && decide (i + sub.length ≤ e') && matchesAt t sub i)
  match hits.getLast? with
  | some i => (i : ℤ)
  | none => -1

/-- Python slice `t[s:e]` (with slice index normalisation). -/
def pySlice (t : List Char) (s e : ℤ) : List Char :=
  let s' := pyNorm t.length s
  let e' := pyNorm t.length e
  (t.drop s').take (e' - s')

/-- One iteration of the `while` loop of `split_text_into_chunks` on the
normalised text `t`: from the current window start, compute the (possibly
sentence-snapped) window end, the emitted chunk (`none` when it strips to
empty and is dropped) and the next window start.  Mirrors lines 53-75 of
rag_day_16/text_to_embedding.py. -/
def chunkStep (t : List Char) (chunk_size overlap : ℕ) (start : ℤ) :
    Option (List Char) × ℤ :=
  let e0 : ℤ := start + chunk_size
  let e : ℤ :=
    if e0 < (t.length : ℤ) then
      let sentence_end := max (max (pyRfind t ['.', ' '] start e0)
                                   (pyRfind t ['!', ' '] start e0))
                              (max (pyRfind t ['?', ' '] start e0)
                                   (pyRfind t ['\n'] start e0))
      if sentence_end ≠ -1 then sentence_end + 1 else e0
    else e0
  let chunk := pyStrip (pySlice t start e)
  (if chunk ≠ [] then some chunk else none,
   if e < (t.length : ℤ) then e - overlap else e)

/-- The `while start < len(text)` loop of `split_text_into_chunks`, with
fuel; `none` means the loop did not terminate within `fuel` iterations. -/
def splitLoop (t : List Char) (chunk_size overlap : ℕ) :
    ℕ → ℤ → Option (List (List Char))
  | 0, _ => none
  | fuel + 1, start =>
    if start < (t.length : ℤ) then
      let step := chunkStep t chunk_size overlap start
      match splitLoop t chunk_size overlap fuel step.2 with
      | none => none
      | some rest => some (step.1.toList ++ rest)
    else some []

/-- `split_text_into_chunks(text, chunk_size, overlap)`
(rag_day_16/text_to_embedding.py, lines 34-77), with fuel for the loop. -/
def split_text_into_chunks (fuel : ℕ) (text : List Char)
    (chunk_size overlap : ℕ) : Option (List (List Char)) :=
  splitLoop (normalizeText text) chunk_size overlap fuel 0

/-- The input on which the chunker fails to make forward progress:
`"ab. "` followed by eleven `x` characters (already normalised), with
`chunk_size = 10`, `overlap = 3` (valid: `0 < overlap < chunk_size`). -/
def chunkerCexText : List Char :=
  ['a', 'b', '.', ' ', 'x', 'x', 'x', 'x', 'x', 'x', 'x', 'x', 'x', 'x', 'x']

/-! ### Day-16 index construction: `generate_embeddings`, `create_index` -/

/-- Errors raised by the external Yandex services (quota, network, malformed
response, and the `IndexError` raised by `result.alternatives[0]` on an empty
alternatives list). -/
inductive SvcErr where
  | network
  | quota
  | malformed
  | emptyAlternatives
deriving DecidableEq, Repr

/-- A document-side embedding call `embedder.run(chunk)`: either an error or
the embedding vector together with the token usage (`none` when the result
object has no `usage` attribute, modelling the `hasattr` probe). -/
def DocEmbedder : Type := String → Except SvcErr (List ℚ × Option ℕ)

/-- The `for` loop of `generate_embeddings` (rag_day_16/text_to_embedding.py,
lines 99-118): embeds each chunk, records an empty vector when the call for
that chunk raises, and accumulates `self.total_tokens`.  Returns the list of
embeddings and the final token total. -/
def embedLoop (emb : DocEmbedder) : List String → ℕ → List (List ℚ) × ℕ
  | [], tok => ([], tok)
  | c :: cs, tok =>
    match emb c with
    | .ok (v, u) =>
      let rest := embedLoop emb cs (tok + u.getD 0)
      (v :: rest.1, rest.2)
    | .error _ =>
      let rest := embedLoop emb cs tok
      ([] :: rest.1, rest.2)

/-- `generate_embeddings(chunks, model)` (lines 79-126): obtaining the
embedder itself may fail, in which case the exception is re-raised
(build-time fatal); otherwise the per-chunk loop never raises. -/
def generate_embeddings (getEmbedder : Except SvcErr DocEmbedder)
    (chunks : List String) (tok0 : ℕ) : Except SvcErr (List (List ℚ) × ℕ) :=
  match getEmbedder with
  | .error e => .error e
  | .ok emb => .ok (embedLoop emb chunks tok0)

/-- Metadata of an index, as stamped by `create_index` (lines 151-159). -/
structure Metadata where
  total_chunks : ℕ
  chunk_size : ℕ
  overlap : ℕ
  model : String
  embedding_dimension : ℕ
  total_tokens_used : ℕ
deriving DecidableEq, Repr

/-- One entry of the `documents` list of an index (lines 160-169). -/
structure Document where
  id : ℕ
  text : String
  embedding : List ℚ
  char_start : ℕ
  char_end : ℕ
deriving DecidableEq, Repr

/-- An index: metadata plus the ordered document list. -/
structure Index where
  metadata : Metadata
  documents : List Document
deriving DecidableEq, Repr

/-- The `documents` list comprehension of `create_index` (lines 160-169):
`enumerate(zip(chunks, embeddings))` with `char_start`/`char_end` computed as
sums of the lengths of the preceding chunks. -/
def mkDocuments (chunks : List (List Char)) (embeddings : List (List ℚ)) :
    List Document :=
  (List.zip chunks embeddings).enum.map fun p =>
    { id := p.1
      text := String.mk p.2.1
      embedding := p.2.2
      char_start := ((chunks.take p.1).map List.length).sum
      char_end := ((chunks.take (p.1 + 1)).map List.length).sum }

/-- The `embedding_dimension` expression of `create_index` (line 157):
`len(embeddings[0]) if embeddings and embeddings[0] else 0`. -/
def embeddingDimension (embeddings : List (List ℚ)) : ℕ :=
  match embeddings with
  | [] => 0
  | e0 :: _ => if e0 ≠ [] then e0.length else 0

/-- `create_index(text, chunk_size, overlap, model)` (lines 128-172): chunk
the text, embed every chunk, stamp metadata.  The outer `Option` is the fuel
of the chunker loop (`none` = the loop did not finish); the inner `Except`
re-raises a fatal embedder failure.  `tok0` is the token counter
`self.total_tokens` of the indexer instance before the call. -/
def create_index (fuel : ℕ) (getEmbedder : Except SvcErr DocEmbedder)
    (text : List Char) (chunk_size overlap : ℕ) (model : String) (tok0 : ℕ) :
    Option (Except SvcErr Index) :=
  match split_text_into_chunks fuel text chunk_size overlap with
  | none => none
  | some chunks =>
    some (match generate_embeddings getEmbedder (chunks.map String.mk) tok0 with
      | .error e => .error e
      | .ok res =>
        .ok { metadata :=
                { total_chunks := chunks.length
                  chunk_size := chunk_size
                  overlap := overlap
                  model := model
                  embedding_dimension := embeddingDimension res.1
                  total_tokens_used := res.2 }
              documents := mkDocuments chunks res.1 })

/-! ### IndexStore: `save_index`, `load_index` (and day-17 `_load_index`) -/

/-- The JSON documents involved in the persisted index artifact. -/
inductive Json where
  | num : ℚ → Json
  | str : String → Json
  | arr : List Json → Json
  | obj : List (String × Json) → Json

/-- Errors of the load path: `parseError` models the exception `json.load`
raises on content that is not valid JSON. -/
inductive LoadErr where
  | parseError
deriving DecidableEq, Repr

/-- `load_index(input_path)` (rag_day_16/text_to_embedding.py, lines 187-201)
and the identical `YandexRAGSystem._load_index` (rag_day_17/rag_classes.py,
lines 41-47): both are exactly `json.load(f)`.  The file content is modelled
as `none` when it is not valid JSON text and as `some j` when it parses to
the JSON document `j`; `json.load` raises only in the former case and
performs no validation whatsoever of the parsed value. -/
def load_index (content : Option Json) : Except LoadErr Json :=
  match content with
  | none => .error .parseError
  | some j => .ok j

/-- Look up a key of a JSON object (`d[key]` on the decoded Python dict);
`none` when the value is not an object or lacks the key. -/
def Json.getField (j : Json) (key : String) : Option Json :=
  match j with
  | .obj fields => (fields.find? (fun p => p.1 = key)).map (fun p => p.2)
  | _ => none

/-- Read a JSON number as a natural number (an integer-valued, non-negative
numeric field such as `id` or `char_start`). -/
def Json.asNat (j : Json) : Option ℕ :=
  match j with
  | .num q => if q.den = 1 ∧ 0 ≤ q.num then some q.num.toNat else none
  | _ => none

/-- Read a JSON number as a rational (a float field such as one component of
an embedding vector). -/
def Json.asRat (j : Json) : Option ℚ :=
  match j with
  | .num q => some q
  | _ => none

/-- Read a JSON string. -/
def Json.asStr (j : Json) : Option String :=
  match j with
  | .str s => some s
  | _ => none

/-- Read a JSON array elementwise. -/
def Json.asArrWith {α : Type} (j : Json) (f : Json → Option α) :
    Option (List α) :=
  match j with
  | .arr l => l.mapM f
  | _ => none

/-- The JSON document `json.dump` writes for one entry of `documents`
(`save_index`, with the dict shape produced by `create_index`). -/
def documentToJson (d : Document) : Json :=
  .obj [("id", .num d.id),
        ("text", .str d.text),
        ("embedding", .arr (d.embedding.map Json.num)),
        ("char_start", .num d.char_start),
        ("char_end", .num d.char_end)]

/-- The JSON document `json.dump` writes for the `metadata` dict. -/
def metadataToJson (m : Metadata) : Json :=
  .obj [("total_chunks", .num m.total_chunks),
        ("chunk_size", .num m.chunk_size),
        ("overlap", .num m.overlap),
        ("model", .str m.model),
        ("embedding_dimension", .num m.embedding_dimension),
        ("total_tokens_used", .num m.total_tokens_used)]

/-- `save_index(index, output_path)` (lines 174-185): the JSON artifact
`json.dump` writes for the whole index. -/
def save_index (idx : Index) : Json :=
  .obj [("metadata", metadataToJson idx.metadata),
        ("documents", .arr (idx.documents.map documentToJson))]

/-- Reconstruction of one document entry from its JSON value, reading the
fields `id`, `text`, `embedding`, `char_start`, `char_end` exactly as the
consuming code (rag_day_17/rag_day_18) accesses the loaded dict. -/
def documentOfJson (j : Json) : Option Document :=
  (j.getField "id").bind fun ji =>
  ji.asNat.bind fun i =>
  (j.getField "text").bind fun jt =>
  jt.asStr.bind fun t =>
  (j.getField "embedding").bind fun je =>
  (je.asArrWith Json.asRat).bind fun e =>
  (j.getField "char_start").bind fun js =>
  js.asNat.bind fun s =>
  (j.getField "char_end").bind fun jc =>
  jc.asNat.bind fun c =>
  some { id := i, text := t, embedding := e, char_start := s, char_end := c }

/-- Reconstruction of the metadata from its JSON value. -/
def metadataOfJson (j : Json) : Option Metadata :=
  (j.getField "total_chunks").bind fun j1 =>
  j1.asNat.bind fun tc =>
  (j.getField "chunk_size").bind fun j2 =>
  j2.asNat.bind fun cs =>
  (j.getField "overlap").bind fun j3 =>
  j3.asNat.bind fun ov =>
  (j.getField "model").bind fun j4 =>
  j4.asStr.bind fun mo =>
  (j.getField "embedding_dimension").bind fun j5 =>
  j5.asNat.bind fun ed =>
  (j.getField "total_tokens_used").bind fun j6 =>
  j6.asNat.bind fun tt =>
  some { total_chunks := tc, chunk_size := cs, overlap := ov, model := mo,
         embedding_dimension := ed, total_tokens_used := tt }

/-- Reading a whole index value back from the loaded JSON document: the
identification of the dict returned by `load_index` with an index value,
field for field. -/
def indexOfJson (j : Json) : Option Index :=
  (j.getField "metadata").bind fun jm =>
  metadataOfJson jm |>.bind fun md =>
  (j.getField "documents").bind fun jd =>
  (jd.asArrWith documentOfJson).bind fun docs =>
  some { metadata := md, documents := docs }

/-! ### Cosine similarity: `YandexRAGSystem._cosine_similarity` (rag_day_17)

The code computes `float(np.dot(a, b) / (norm(a) * norm(b)))`, a real number
`dot / (sqrt (sumSq a) * sqrt (sumSq b))`.  Because the square roots are
irrational, this value is represented exactly and computably by the pair
`Sim` with intended real value `num / Real.sqrt dsq` (the zero-norm branch
returns `⟨0, 1⟩`, i.e. exactly 0.0, and otherwise `num = dot a b` and
`dsq = sumSq a * sumSq b > 0`).  Comparisons of similarity values are decided
through the strictly monotone map `x ↦ x * |x|`, which turns
`num / Real.sqrt dsq` into the rational `num * |num| / dsq` (`Sim.key`); the
bridging theorems `Sim.key_le_key_iff` and `Sim.geQ_iff` below prove that
these rational comparisons agree with the comparisons of the real values the
code computes. -/

/-- Exact representation of a cosine-similarity value: the real number
`num / Real.sqrt dsq`. -/
structure Sim where
  num : ℚ
  dsq : ℚ
deriving DecidableEq, Repr

/-- `np.dot(a, b)` on vectors of rationals. -/
def dotQ (a b : List ℚ) : ℚ := (List.zipWith (· * ·) a b).sum

/-- The squared euclidean norm `np.linalg.norm(a) ** 2`. -/
def sumSq (a : List ℚ) : ℚ := dotQ a a

/-- `_cosine_similarity(vec1, vec2)` (rag_day_17/rag_classes.py, lines
49-70): `0.0` when either norm is zero (`norm == 0` iff the sum of squares is
zero), otherwise `dot / (norm1 * norm2)`, represented exactly as a `Sim`. -/
def _cosine_similarity (vec1 vec2 : List ℚ) : Sim :=
  if sumSq vec1 = 0 ∨ sumSq vec2 = 0 then ⟨0, 1⟩
  else ⟨dotQ vec1 vec2, sumSq vec1 * sumSq vec2⟩

/-- The rational comparison key of a similarity value: the image of its real
value `num / Real.sqrt dsq` under the strictly monotone map `x ↦ x * |x|`
(for `dsq > 0`). -/
def Sim.key (s : Sim) : ℚ := s.num * |s.num| / s.dsq

/-- The float comparison `similarity >= threshold` performed by
`filter_by_relevance`, decided on the exact representation: for `dsq > 0`,
`t ≤ num / Real.sqrt dsq` iff `t * |t| * dsq ≤ num * |num|`. -/
def Sim.geQ (s : Sim) (t : ℚ) : Bool :=
  decide (t * |t| * s.dsq ≤ s.num * |s.num|)

/-- The stable descending sort `lst.sort(key=…, reverse=True)` used by both
`search_relevant_chunks` and `ask_with_filter`: Python guarantees a stable
sort (equal keys keep their original relative order, also with
`reverse=True`), and a stable sort is uniquely determined by the key order,
so the stable `List.insertionSort` models it exactly. -/
def sortByKeyDesc {α : Type} (κ : α → ℚ) (l : List α) : List α :=
  List.insertionSort (fun x y => κ y ≤ κ x) l

/-! ### Day-17 query path: `YandexRAGSystem` -/

/-- A query-side embedding call `embedder.run(query)` for the
`text-search-query` model: the service either raises or returns the
embedding vector. -/
def QueryEmbedder : Type := String → Except SvcErr (List ℚ)

/-- The usage object of a completion result
(`input_text_tokens`/`completion_tokens`/`total_tokens`). -/
structure UsageRaw where
  input_text_tokens : ℕ
  completion_tokens : ℕ
  total_tokens : ℕ
deriving DecidableEq, Repr

/-- A completion result: the alternatives and the optional usage object
(`none` models a result object without a `usage` attribute, probed with
`hasattr`). -/
structure CompletionResult where
  alternatives : List String
  usage : Option UsageRaw
deriving DecidableEq, Repr

/-- A configured completion call
`sdk.models.completions(model).configure(temperature, max_tokens).run(prompt)`:
arguments are the model name, temperature, max_tokens and the prompt. -/
def CompletionSvc : Type :=
  String → ℚ → ℕ → String → Except SvcErr CompletionResult

/-- The usage dict assembled by `generate_answer` (lines 207-211). -/
structure UsageStats where
  prompt_tokens : ℕ
  completion_tokens : ℕ
  total_tokens : ℕ
deriving DecidableEq, Repr

/-- One entry of the list built by `search_relevant_chunks` (lines 118-124):
a document together with its similarity to the query. -/
structure ScoredChunk where
  id : ℕ
  text : String
  similarity : Sim
  char_start : ℕ
  char_end : ℕ
deriving DecidableEq, Repr

/-- `generate_query_embedding(query)` (lines 72-89): a single service call,
with no exception handling. -/
def generate_query_embedding (embedSvc : QueryEmbedder) (query : String) :
    Except SvcErr (List ℚ) :=
  embedSvc query

/-- The scored-chunk entry built for one document (lines 117-124). -/
def mkScored (query_embedding : List ℚ) (d : Document) : ScoredChunk :=
  { id := d.id
    text := d.text
    similarity := _cosine_similarity query_embedding d.embedding
    char_start := d.char_start
    char_end := d.char_end }

/-- The similarity loop of `search_relevant_chunks` (lines 112-124):
documents with an empty embedding are skipped (`if not doc['embedding']:
continue`), every other document is scored. -/
def scored_chunks (query_embedding : List ℚ) (docs : List Document) :
    List ScoredChunk :=
  (docs.filter (fun d => !d.embedding.isEmpty)).map (mkScored query_embedding)

/-- The ranked list of `search_relevant_chunks` before truncation (line 127):
the scored chunks sorted by descending similarity with Python's stable sort. -/
def rank_chunks (query_embedding : List ℚ) (docs : List Document) :
    List ScoredChunk :=
  sortByKeyDesc (fun c => c.similarity.key) (scored_chunks query_embedding docs)

/-- `search_relevant_chunks(query, top_k)` (lines 91-142): embed the query
(uncaught on failure), score, sort descending, return the first `top_k`. -/
def search_relevant_chunks (embedSvc : QueryEmbedder) (docs : List Document)
    (query : String) (top_k : ℕ) : Except SvcErr (List ScoredChunk) :=
  match generate_query_embedding embedSvc query with
  | .error e => .error e
  | .ok qe => .ok ((rank_chunks qe docs).take top_k)

/-- The per-chunk context line of the prompt of `generate_answer` (lines
165-168).  Python renders the similarity float with format `:.4f`; the
decimal rendering of a float is outside the rational model, so it is a
parameter `renderSim` of the query path (it influences nothing but the
prompt text sent to the completion service). -/
def render_chunk (renderSim : Sim → String) (i : ℕ) (c : ScoredChunk) :
    String :=
  "Фрагмент " ++ toString (i + 1) ++ " (релевантность: " ++
    renderSim c.similarity ++ "):\n" ++ c.text

/-- The context block of the prompt of `generate_answer` (lines 165-168). -/
def build_context (renderSim : Sim → String) (chunks : List ScoredChunk) :
    String :=
  String.intercalate "\n\n" (chunks.enum.map (fun p => render_chunk renderSim p.1 p.2))

/-- The grounded prompt of `generate_answer` (lines 171-185). -/
def rag_prompt (renderSim : Sim → String) (query : String)
    (chunks : List ScoredChunk) : String :=
  "На основе предоставленного контекста ответь на вопрос пользователя.\n\n" ++
  "КОНТЕКСТ:\n" ++ build_context renderSim chunks ++ "\n\n" ++
  "ВОПРОС:\n" ++ query ++ "\n\n" ++
  "ИНСТРУКЦИИ:\n- Используй только информацию из контекста\n" ++
  "- Если в контексте нет ответа, честно скажи об этом\n" ++
  "- Отвечай четко и по существу\n" ++
  "- Приводи цитаты из контекста, если это уместно\n\nОТВЕТ:"

/-- The result dict of `generate_answer`/`ask` (lines 218-224 and 249-254);
`temperature` is `none` for the diagnostic dict of `ask`, which carries no
`temperature` key. -/
structure AskResult where
  answer : String
  context_chunks : List ScoredChunk
  usage : UsageStats
  model : String
  temperature : Option ℚ
deriving DecidableEq, Repr

/-- The usage dict of `generate_answer` (lines 207-211): each field is read
from `result.usage` when the result has a `usage` attribute and is 0
otherwise. -/
def usageStatsOf (u : Option UsageRaw) : UsageStats :=
  { prompt_tokens := match u with | some w => w.input_text_tokens | none => 0
    completion_tokens := match u with | some w => w.completion_tokens | none => 0
    total_tokens := match u with | some w => w.total_tokens | none => 0 }

/-- `generate_answer(query, context_chunks, model, temperature, max_tokens)`
(rag_day_17/rag_classes.py, lines 144-224): build the grounded prompt, run
the completion service once (uncaught on failure), take
`result.alternatives[0]` (an `IndexError` — modelled as
`SvcErr.emptyAlternatives` — when there is no alternative) and record usage. -/
def generate_answer (compSvc : CompletionSvc) (renderSim : Sim → String)
    (query : String) (context_chunks : List ScoredChunk) (model : String)
    (temperature : ℚ) (max_tokens : ℕ) : Except SvcErr AskResult :=
  match compSvc model temperature max_tokens
      (rag_prompt renderSim query context_chunks) with
  | .error e => .error e
  | .ok r =>
    match r.alternatives with
    | [] => .error .emptyAlternatives
    | a :: _ =>
      .ok { answer := a
            context_chunks := context_chunks
            usage := usageStatsOf r.usage
            model := model
            temperature := some temperature }

/-- The diagnostic answer string of `ask` (line 250). -/
def noRelevantInfoAnswer : String :=
  "Не удалось найти релевантную информацию в индексе."

/-- `ask(query, top_k, model, temperature, max_tokens)`
(rag_day_17/rag_classes.py, lines 226-259): search, then either the
diagnostic dict (empty retrieval) or `generate_answer`.  There is no
exception handling anywhere on this path. -/
def ask (embedSvc : QueryEmbedder) (compSvc : CompletionSvc)
    (renderSim : Sim → String) (docs : List Document) (query : String)
    (top_k : ℕ) (model : String) (temperature : ℚ) (max_tokens : ℕ) :
    Except SvcErr AskResult :=
  match search_relevant_chunks embedSvc docs query top_k with
  | .error e => .error e
  | .ok relevant_chunks =>
    if relevant_chunks.isEmpty then
      .ok { answer := noRelevantInfoAnswer
            context_chunks := []
            usage := ⟨0, 0, 0⟩
            model := model
            temperature := none }
    else
      generate_answer compSvc renderSim query relevant_chunks model
        temperature max_tokens

/-! ### Day-18 filtered query path: `RAGWithRelevanceFilter` -/

/-- The chunk dict built in stage 1 of `ask_with_filter` (lines 105-113):
like a scored chunk but without the similarity, which is kept as the second
tuple component. -/
structure Chunk18 where
  id : ℕ
  text : String
  char_start : ℕ
  char_end : ℕ
deriving DecidableEq, Repr

/-- Stage-1 scoring of `ask_with_filter` (lines 99-113): documents with an
empty embedding are skipped, the rest are paired with their similarity. -/
def scored_chunks18 (query_embedding : List ℚ) (docs : List Document) :
    List (Chunk18 × Sim) :=
  (docs.filter (fun d => !d.embedding.isEmpty)).map fun d =>
    (⟨d.id, d.text, d.char_start, d.char_end⟩,
     _cosine_similarity query_embedding d.embedding)

/-- The stage-1 ranked list of `ask_with_filter` before truncation (line
116): stable descending sort on the similarity component. -/
def ranked18 (query_embedding : List ℚ) (docs : List Document) :
    List (Chunk18 × Sim) :=
  sortByKeyDesc (fun p => p.2.key) (scored_chunks18 query_embedding docs)

/-- `filter_by_relevance(chunks_with_scores)`
(rag_day_18/rag_request_with_relevance.py, lines 46-72): keep the tuples with
`score >= self.relevance_threshold`, preserving order. -/
def filter_by_relevance (relevance_threshold : ℚ)
    (chunks_with_scores : List (Chunk18 × Sim)) : List (Chunk18 × Sim) :=
  chunks_with_scores.filter (fun p => p.2.geQ relevance_threshold)

/-- The fallback prompt of `_answer_without_context` (lines 168-173), which
admits the absence of source-grounded information. -/
def fallback_prompt (query : String) : String :=
  "Ответь на вопрос, но честно признай, что у тебя нет конкретной информации из документа.\n\n" ++
  "ВОПРОС:\n" ++ query ++ "\n\nОТВЕТ:"

/-- `_answer_without_context(query)` (lines 166-179): one completion call
with model `"yandexgpt"`, temperature 0.3, max_tokens 500; returns only the
text of the first alternative, discarding the result's usage. -/
def _answer_without_context (compSvc : CompletionSvc) (query : String) :
    Except SvcErr String :=
  match compSvc "yandexgpt" (3 / 10) 500 (fallback_prompt query) with
  | .error e => .error e
  | .ok r =>
    match r.alternatives with
    | [] => .error .emptyAlternatives
    | a :: _ => .ok a

/-- The result dict of `ask_with_filter` (lines 132-140 and 157-162): the
fields of the success branch (`generate_answer` result plus
`filtered_out`, `threshold_used`, `relevance_scores`) and of the
no-context branch (`warning` instead of `threshold_used`/`model`/
`temperature`); keys absent from a branch are `none`. -/
structure FilterResult where
  answer : String
  context_chunks : List ScoredChunk
  relevance_scores : List Sim
  filtered_out : ℕ
  usage : UsageStats
  warning : Option String
  threshold_used : Option ℚ
  model : Option String
  temperature : Option ℚ
deriving DecidableEq, Repr

/-- The conversion of filtered tuples into `generate_answer`-format chunks
(lines 146-154). -/
def toContextChunks (filtered : List (Chunk18 × Sim)) : List ScoredChunk :=
  filtered.map fun p =>
    { id := p.1.id, text := p.1.text, similarity := p.2,
      char_start := p.1.char_start, char_end := p.1.char_end }

/-- `ask_with_filter(query, top_k, model, temperature)`
(rag_day_18/rag_request_with_relevance.py, lines 74-164): embed the query
(uncaught on failure), rank, truncate to `top_k`, filter by the relevance
threshold; on an empty filtered list answer without context and report zero
usage, otherwise generate from the filtered context (with the parent's
default `max_tokens = 2000`) and report the filtering statistics. -/
def ask_with_filter (embedSvc : QueryEmbedder) (compSvc : CompletionSvc)
    (renderSim : Sim → String) (docs : List Document)
    (relevance_threshold : ℚ) (query : String) (top_k : ℕ) (model : String)
    (temperature : ℚ) : Except SvcErr FilterResult :=
  match generate_query_embedding embedSvc query with
  | .error e => .error e
  | .ok qe =>
    let similar_chunks := (ranked18 qe docs).take top_k
    let filtered_chunks := filter_by_relevance relevance_threshold similar_chunks
    if filtered_chunks.isEmpty then
      match _answer_without_context compSvc query with
      | .error e => .error e
      | .ok ans =>
        .ok { answer := ans
              context_chunks := []
              relevance_scores := []
              filtered_out := similar_chunks.length
              usage := ⟨0, 0, 0⟩
              warning := some ("Все " ++ toString similar_chunks.length ++
                " фрагментов отфильтрованы (порог " ++
                toString relevance_threshold ++ ")")
              threshold_used := none
              model := none
              temperature := none }
    else
      match generate_answer compSvc renderSim query
          (toContextChunks filtered_chunks) model temperature 2000 with
      | .error e => .error e
      | .ok r =>
        .ok { answer := r.answer
              context_chunks := r.context_chunks
              relevance_scores := filtered_chunks.map (fun p => p.2)
              filtered_out := similar_chunks.length - filtered_chunks.length
              usage := r.usage
              warning := none
              threshold_used := some relevance_threshold
              model := some r.model
              temperature := r.temperature }

/-! ### Concrete services and inputs used by counterexamples and witnesses -/

/-- A query embedder whose service call raises a network error. -/
def errEmbedSvc : QueryEmbedder := fun _ => Except.error SvcErr.network

/-- A query embedder that returns the vector `[1, 0]`. -/
def okEmbedSvc : QueryEmbedder := fun _ => Except.ok [1, 0]

/-- A completion service that answers with one alternative and a concrete
usage object. -/
def okCompSvc : CompletionSvc :=
  fun _ _ _ _ => Except.ok ⟨["нет данных в документе"], some ⟨100, 50, 150⟩⟩

/-- A completion service whose call raises a quota error. -/
def errCompSvc : CompletionSvc := fun _ _ _ _ => Except.error SvcErr.quota

/-- A fixed rendering of similarity floats for prompts. -/
def constRender : Sim → String := fun _ => "0.0000"

/-- A small document list with ascending ids, two embedded passages and one
passage with a failed (empty) embedding. -/
def demoDocs : List Document :=
  [{ id := 0, text := "alpha", embedding := [1, 0], char_start := 0, char_end := 5 },
   { id := 1, text := "beta", embedding := [0, 1], char_start := 5, char_end := 9 },
   { id := 2, text := "gamma", embedding := [], char_start := 9, char_end := 14 }]

/-- The text `"abcdefgh"` used for concrete index construction (it chunks
into `["abcde", "defgh"]` with `chunk_size = 5`, `overlap = 2`). -/
def demoIndexText : List Char := ['a', 'b', 'c', 'd', 'e', 'f', 'g', 'h']

/-- A document embedder that fails on the first chunk `"abcde"` and returns
the two-component vector `[1, 2]` (with 5 tokens of usage) on any other
chunk. -/
def cexDocEmbedder : DocEmbedder := fun s =>
  if s = "abcde" then Except.error SvcErr.network
  else Except.ok ([1, 2], some 5)

/-- The index `create_index` builds from `demoIndexText` with
`cexDocEmbedder`: the first passage's embedding failed (recorded empty), the
second succeeded with a vector of length 2, and `embedding_dimension` is 0. -/
def cexIndexC3 : Index :=
  { metadata :=
      { total_chunks := 2, chunk_size := 5, overlap := 2,
        model := "text-search-doc", embedding_dimension := 0,
        total_tokens_used := 5 }
    documents :=
      [{ id := 0, text := "abcde", embedding := [], char_start := 0, char_end := 5 },
       { id := 1, text := "defgh", embedding := [1, 2], char_start := 5, char_end := 10 }] }

/-- A document embedder that succeeds on every chunk with the vector `[1, 2]`. -/
def okDocEmbedder : DocEmbedder := fun _ => Except.ok ([1, 2], some 5)

/-- The index `create_index` builds from `demoIndexText` with
`okDocEmbedder` (every embedding call succeeds). -/
def okIndexC3 : Index :=
  { metadata :=
      { total_chunks := 2, chunk_size := 5, overlap := 2,
        model := "text-search-doc", embedding_dimension := 2,
        total_tokens_used := 10 }
    documents :=
      [{ id := 0, text := "abcde", embedding := [1, 2], char_start := 0, char_end := 5 },
       { id := 1, text := "defgh", embedding := [1, 2], char_start := 5, char_end := 10 }] }

/-- A JSON artifact that is valid JSON but structurally invalid for an index
(no `documents`, no `metadata`, none of the per-passage fields). -/
def malformedArtifact : Json := Json.obj [("foo", Json.str "bar")]

/-! ### Shared lemmas: stable descending sort -/

/-- Inserting `a` into a list that is pairwise sorted for the combined
descending-key/original-order relation keeps that relation, provided `a`
stands in relation `P` to every element already present (stability:  with
the relation `fun x y => κ y ≤ κ x`, `orderedInsert` puts `a` before every
element of equal key). -/
theorem orderedInsert_pairwise_key {α : Type} (κ : α → ℚ) (P : α → α → Prop)
    (a : α) (l : List α)
    (hl : l.Pairwise (fun x y => κ y ≤ κ x ∧ (κ x = κ y → P x y)))
    (ha : ∀ x ∈ l, P a x) :
    (List.orderedInsert (fun x y => κ y ≤ κ x) a l).Pairwise
      (fun x y => κ y ≤ κ x ∧ (κ x = κ y → P x y)) := by
  induction l with
  | nil => simp
  | cons b t ih =>
    rw [List.orderedInsert]
    by_cases hab : κ b ≤ κ a
    · rw [if_pos hab]
      refine List.Pairwise.cons ?_ hl
      intro x hx
      rcases List.mem_cons.mp hx with rfl | hxt
      · exact ⟨hab, fun _ => ha x (List.mem_cons_self _ _)⟩
      · have hbx := (List.pairwise_cons.mp hl).1 x hxt
        exact ⟨le_trans hbx.1 hab, fun _ => ha x (List.mem_cons_of_mem _ hxt)⟩
    · rw [if_neg hab]
      have hba : κ a < κ b := lt_of_not_le hab
      refine List.Pairwise.cons ?_ ?_
      · intro x hx
        rcases (List.mem_orderedInsert _).mp hx with rfl | hxt
        · exact ⟨le_of_lt hba, fun he => absurd he hba.ne'⟩
        · exact (List.pairwise_cons.mp hl).1 x hxt
      · exact ih (List.pairwise_cons.mp hl).2
          (fun x hx => ha x (List.mem_cons_of_mem _ hx))

/-- The stable descending sort of a list pairwise related by `P` is pairwise
non-increasing in the key, and elements of equal key keep their original
relative order (hence still satisfy `P`). -/
theorem sortByKeyDesc_pairwise {α : Type} (κ : α → ℚ) (P : α → α → Prop)
    (l : List α) (hl : l.Pairwise P) :
    (sortByKeyDesc κ l).Pairwise
      (fun x y => κ y ≤ κ x ∧ (κ x = κ y → P x y)) := by
  induction l with
  | nil => simp [sortByKeyDesc]
  | cons a t ih =>
    rw [sortByKeyDesc, List.insertionSort]
    refine orderedInsert_pairwise_key κ P a _ ?_ ?_
    · exact ih (List.pairwise_cons.mp hl).2
    · intro x hx
      exact (List.pairwise_cons.mp hl).1 x
        ((List.mem_insertionSort _).mp hx)

/-- The stable descending sort is a permutation of its input. -/
theorem sortByKeyDesc_perm {α : Type} (κ : α → ℚ) (l : List α) :
    (sortByKeyDesc κ l).Perm l :=
  List.perm_insertionSort _ l

/-! ### Shared lemmas: the exact similarity representation -/

/-- The map `x ↦ x * |x|` is strictly monotone on `ℝ`; comparisons of
similarity values are decided through it. -/
theorem strictMono_mul_abs : StrictMono (fun x : ℝ => x * |x|) := by
  intro a b hab
  show a * |a| < b * |b|
  rcases le_or_lt 0 a with ha | ha
  · rw [abs_of_nonneg ha, abs_of_nonneg (le_trans ha hab.le)]
    exact mul_self_lt_mul_self ha hab
  · rcases le_or_lt 0 b with hb | hb
    · rw [abs_of_neg ha, abs_of_nonneg hb]
      nlinarith [mul_self_nonneg b]
    · rw [abs_of_neg ha, abs_of_neg hb]
      nlinarith

/-- The rational key of a similarity value is the image of its real value
under `x ↦ x * |x|`. -/
theorem Sim.key_eq_real (s : Sim) (h : 0 < s.dsq) :
    ((s.key : ℚ) : ℝ) =
      (s.num : ℝ) / Real.sqrt (s.dsq : ℚ) *
        |(s.num : ℝ) / Real.sqrt (s.dsq : ℚ)| := by
  have hd : (0 : ℝ) < ((s.dsq : ℚ) : ℝ) := by exact_mod_cast h
  have hs : (0 : ℝ) < Real.sqrt (s.dsq : ℚ) := Real.sqrt_pos.mpr hd
  rw [abs_div, abs_of_nonneg (Real.sqrt_nonneg _), div_mul_div_comm,
    Real.mul_self_sqrt hd.le, Sim.key]
  push_cast
  ring

/-- Correctness of the decidable key comparison: for similarity values with
positive `dsq` (as produced by `_cosine_similarity`), comparing the rational
keys is the same as comparing the real similarity values the code computes. -/
theorem Sim.key_le_key_iff (s1 s2 : Sim) (h1 : 0 < s1.dsq) (h2 : 0 < s2.dsq) :
    s1.key ≤ s2.key ↔
      (s1.num : ℝ) / Real.sqrt (s1.dsq : ℚ) ≤
        (s2.num : ℝ) / Real.sqrt (s2.dsq : ℚ) := by
  rw [← strictMono_mul_abs.le_iff_le, ← Sim.key_eq_real s1 h1,
    ← Sim.key_eq_real s2 h2]
  exact_mod_cast Iff.rfl

/-- Correctness of the decidable threshold comparison `Sim.geQ`: for a
similarity value with positive `dsq`, `s.geQ t` is the float comparison
`t ≤ num / sqrt dsq` performed by `filter_by_relevance`. -/
theorem Sim.geQ_iff (s : Sim) (t : ℚ) (h : 0 < s.dsq) :
    s.geQ t = true ↔ (t : ℝ) ≤ (s.num : ℝ) / Real.sqrt (s.dsq : ℚ) := by
  rw [Sim.geQ, decide_eq_true_iff]
  have hd : (0 : ℝ) < ((s.dsq : ℚ) : ℝ) := by exact_mod_cast h
  constructor
  · intro hle
    rw [← strictMono_mul_abs.le_iff_le, ← Sim.key_eq_real s h]
    have hkey : t * |t| ≤ s.key := by
      rw [Sim.key, le_div_iff₀ h]
      exact hle
    calc ((t : ℝ) * |(t : ℝ)|) = ((t * |t| : ℚ) : ℝ) := by push_cast; ring
      _ ≤ ((s.key : ℚ) : ℝ) := by exact_mod_cast hkey
  · intro hle
    have hkey : ((t * |t| : ℚ) : ℝ) ≤ ((s.key : ℚ) : ℝ) := by
      rw [Sim.key_eq_real s h]
      calc ((t * |t| : ℚ) : ℝ) = (t : ℝ) * |(t : ℝ)| := by push_cast; ring
        _ ≤ _ := strictMono_mul_abs.le_iff_le.mpr hle
    have hkey2 : t * |t| ≤ s.key := by exact_mod_cast hkey
    rw [Sim.key, le_div_iff₀ h] at hkey2
    exact hkey2

/-- The dot product is symmetric. -/
theorem dotQ_comm (a b : List ℚ) : dotQ a b = dotQ b a := by
  rw [dotQ, dotQ, List.zipWith_comm_of_comm _ mul_comm]

/-- A sum of squares is non-negative. -/
theorem sumSq_nonneg (a : List ℚ) : 0 ≤ sumSq a := by
  induction a with
  | nil => simp [sumSq, dotQ]
  | cons x t ih =>
    have : sumSq (x :: t) = x * x + sumSq t := by
      simp [sumSq, dotQ]
    rw [this]
    nlinarith

/-! ### Shared lemmas: the embedding loop and the document list -/

/-- The embedding loop produces one vector per chunk. -/
theorem embedLoop_length (emb : DocEmbedder) :
    ∀ (chunks : List String) (tok : ℕ),
      (embedLoop emb chunks tok).1.length = chunks.length := by
  intro chunks
  induction chunks with
  | nil => intro tok; rfl
  | cons c cs ih =>
    intro tok
    rw [embedLoop]
    cases emb c with
    | ok p => simpa using ih (tok + p.2.getD 0)
    | error e => simpa using ih tok

/-- Every vector produced by the embedding loop is either the empty vector
(recorded for a failed call) or the result of a successful service call. -/
theorem embedLoop_mem (emb : DocEmbedder) :
    ∀ (chunks : List String) (tok : ℕ) (v : List ℚ),
      v ∈ (embedLoop emb chunks tok).1 →
      v = [] ∨ ∃ s u, emb s = Except.ok (v, u) := by
  intro chunks
  induction chunks with
  | nil => intro tok v hv; simp [embedLoop] at hv
  | cons c cs ih =>
    intro tok v hv
    rw [embedLoop] at hv
    cases hc : emb c with
    | ok p =>
      rw [hc] at hv
      rcases List.mem_cons.mp hv with rfl | hv2
      · exact Or.inr ⟨c, p.2, by rw [hc]⟩
      · exact ih _ v hv2
    | error e =>
      rw [hc] at hv
      rcases List.mem_cons.mp hv with rfl | hv2
      · exact Or.inl rfl
      · exact ih _ v hv2

/-- Second components of an enumerated list are members of the list. -/
theorem snd_mem_of_mem_enumFrom {α : Type} :
    ∀ {l : List α} {n : ℕ} {p : ℕ × α}, p ∈ l.enumFrom n → p.2 ∈ l := by
  intro l
  induction l with
  | nil => intro n p hp; simp [List.enumFrom] at hp
  | cons a t ih =>
    intro n p hp
    rw [List.enumFrom] at hp
    rcases List.mem_cons.mp hp with rfl | hp2
    · exact List.mem_cons_self _ _
    · exact List.mem_cons_of_mem _ (ih hp2)

/-- The embedding recorded in any document comes from the embeddings list. -/
theorem mkDocuments_embedding_mem (chunks : List (List Char))
    (embeddings : List (List ℚ)) :
    ∀ d ∈ mkDocuments chunks embeddings, d.embedding ∈ embeddings := by
  intro d hd
  rw [mkDocuments] at hd
  rcases List.mem_map.mp hd with ⟨p, hp, rfl⟩
  have h2 : p.2 ∈ List.zip chunks embeddings := by
    rw [List.enum] at hp
    exact snd_mem_of_mem_enumFrom hp
  exact (List.of_mem_zip h2).2

/-! ### Shared lemmas: JSON round trip -/

/-- A natural-number field survives the trip through a JSON number. -/
theorem asNat_num_natCast (n : ℕ) : Json.asNat (Json.num (n : ℚ)) = some n := by
  rw [Json.asNat]
  rw [if_pos ⟨Rat.den_natCast n, by simp⟩]
  simp

/-- Element-wise decoding inverts element-wise encoding. -/
theorem mapM_map_some {α : Type} (f : α → Json) (g : Json → Option α)
    (h : ∀ a, g (f a) = some a) :
    ∀ l : List α, (l.map f).mapM g = some l := by
  intro l
  induction l with
  | nil => rfl
  | cons a t ih =>
    rw [List.map_cons, List.mapM_cons, h a, ih]
    rfl

/-- A document entry survives the trip through its JSON value. -/
theorem documentOfJson_toJson (d : Document) :
    documentOfJson (documentToJson d) = some d := by
  have h1 : (documentToJson d).getField "id" = some (Json.num (d.id : ℚ)) := rfl
  have h2 : (documentToJson d).getField "text" = some (Json.str d.text) := rfl
  have h3 : (documentToJson d).getField "embedding"
      = some (Json.arr (d.embedding.map Json.num)) := rfl
  have h4 : (documentToJson d).getField "char_start"
      = some (Json.num (d.char_start : ℚ)) := rfl
  have h5 : (documentToJson d).getField "char_end"
      = some (Json.num (d.char_end : ℚ)) := rfl
  have hemb : (Json.arr (d.embedding.map Json.num)).asArrWith Json.asRat
      = some d.embedding := by
    rw [Json.asArrWith]
    exact mapM_map_some Json.num Json.asRat (fun q => rfl) d.embedding
  simp only [documentOfJson, h1, h2, h3, h4, h5, hemb, asNat_num_natCast,
    Json.asStr, Option.some_bind]

/-- The metadata survives the trip through its JSON value. -/
theorem metadataOfJson_toJson (m : Metadata) :
    metadataOfJson (metadataToJson m) = some m := by
  have h1 : (metadataToJson m).getField "total_chunks"
      = some (Json.num (m.total_chunks : ℚ)) := rfl
  have h2 : (metadataToJson m).getField "chunk_size"
      = some (Json.num (m.chunk_size : ℚ)) := rfl
  have h3 : (metadataToJson m).getField "overlap"
      = some (Json.num (m.overlap : ℚ)) := rfl
  have h4 : (metadataToJson m).getField "model" = some (Json.str m.model) := rfl
  have h5 : (metadataToJson m).getField "embedding_dimension"
      = some (Json.num (m.embedding_dimension : ℚ)) := rfl
  have h6 : (metadataToJson m).getField "total_tokens_used"
      = some (Json.num (m.total_tokens_used : ℚ)) := rfl
  simp only [metadataOfJson, h1, h2, h3, h4, h5, h6, asNat_num_natCast,
    Json.asStr, Option.some_bind]

/-! ### Claim theorems -/

/-- When one loop iteration maps window start 0 back to window start 0 on a
non-empty text, the chunker loop never terminates, for any amount of fuel. -/
theorem splitLoop_none_of_fixpoint (t : List Char) (cs ov : ℕ)
    (h0 : 0 < t.length) (hfix : (chunkStep t cs ov 0).2 = 0) :
    ∀ fuel, splitLoop t cs ov fuel 0 = none := by
  intro fuel
  induction fuel with
  | zero => rfl
  | succ n ih =>
    have hlt : (0 : ℤ) < (t.length : ℤ) := by exact_mod_cast h0
    rw [splitLoop, if_pos hlt]
    simp only [hfix, ih]

/-- C1: the claim fails on the code as a non-termination bug.  On the valid
parameters `chunk_size = 10`, `overlap = 3` and the (already normalised)
text `"ab. xxxxxxxxxxx"`, the sentence-boundary snap sets the window end to
3 and the next window start to `3 - 3 = 0`: the window start does not
strictly exceed the previous start (the start sequence is `0, 0, 0, …`),
there is no hard-cut fallback in the code, and the chunker loop never
terminates, for every amount of fuel. -/
theorem split_text_into_chunks_nonprogress_C1 :
    (0 < 3 ∧ 3 < 10)
    ∧ normalizeText chunkerCexText = chunkerCexText
    ∧ (chunkStep chunkerCexText 10 3 0).2 = 0
    ∧ ∀ fuel, split_text_into_chunks fuel chunkerCexText 10 3 = none := by
  refine ⟨by decide, by decide, by decide, ?_⟩
  intro fuel
  rw [split_text_into_chunks, show normalizeText chunkerCexText = chunkerCexText from by decide]
  exact splitLoop_none_of_fixpoint chunkerCexText 10 3 (by decide) (by decide) fuel

/-- C2 counterexample: with a query-time embedding service that raises a
network error, `ask` returns the error itself — the exception propagates to
the caller instead of being converted into a diagnostic answer value, so the
claim as stated is false at this input. -/
theorem ask_propagates_error_cex_C2 :
    ask errEmbedSvc okCompSvc constRender demoDocs "вопрос" 3 "yandexgpt"
      (3 / 10) 2000 = Except.error SvcErr.network := rfl

/-- C2 (amended): errors raised by the external services during query-time
embedding or answer generation are not caught inside the query path — `ask`
propagates them to its caller; the only diagnostic answer `ask` produces is
for the case where retrieval succeeds but yields no scored chunks. -/
theorem ask_error_behavior_C2 (embedSvc : QueryEmbedder)
    (compSvc : CompletionSvc) (renderSim : Sim → String)
    (docs : List Document) (query : String) (top_k : ℕ) (model : String)
    (temperature : ℚ) (max_tokens : ℕ) :
    (∀ e, embedSvc query = Except.error e →
      ask embedSvc compSvc renderSim docs query top_k model temperature
        max_tokens = Except.error e)
    ∧ (∀ qe e, embedSvc query = Except.ok qe →
        (rank_chunks qe docs).take top_k ≠ [] →
        compSvc model temperature max_tokens
            (rag_prompt renderSim query ((rank_chunks qe docs).take top_k)) =
          Except.error e →
        ask embedSvc compSvc renderSim docs query top_k model temperature
          max_tokens = Except.error e)
    ∧ (∀ qe, embedSvc query = Except.ok qe →
        (rank_chunks qe docs).take top_k = [] →
        ask embedSvc compSvc renderSim docs query top_k model temperature
          max_tokens =
          Except.ok { answer := noRelevantInfoAnswer, context_chunks := [],
                      usage := ⟨0, 0, 0⟩, model := model,
                      temperature := none }) := by
  refine ⟨?_, ?_, ?_⟩
  · intro e he
    simp only [ask, search_relevant_chunks, generate_query_embedding, he]
  · intro qe e hq hne hcomp
    have hfalse : ((rank_chunks qe docs).take top_k).isEmpty = false :=
      List.isEmpty_eq_false.mpr hne
    simp only [ask, search_relevant_chunks, generate_query_embedding, hq,
      hfalse, Bool.false_eq_true, if_false, generate_answer, hcomp]
  · intro qe hq hnil
    simp only [ask, search_relevant_chunks, generate_query_embedding, hq,
      hnil, List.isEmpty_nil, if_true]

/-- C2 witness: the amended theorem applied to the concrete failing embedder
of the counterexample. -/
theorem ask_error_behavior_witness_C2 :
    errEmbedSvc "вопрос" = Except.error SvcErr.network ∧
    ask errEmbedSvc okCompSvc constRender demoDocs "вопрос" 3 "yandexgpt"
      (3 / 10) 2000 = Except.error SvcErr.network :=
  ⟨rfl, (ask_error_behavior_C2 errEmbedSvc okCompSvc constRender demoDocs
      "вопрос" 3 "yandexgpt" (3 / 10) 2000).1 SvcErr.network rfl⟩

/-- C3 counterexample: with a document embedder that fails on the first
chunk and then succeeds with a vector of length 2, `create_index` records
`embedding_dimension = 0` (the code uses the first embedding, not the first
successful one), and the second passage has a non-empty embedding of length
2 ≠ 0 — the claimed invariant is false at this input. -/
theorem create_index_dimension_cex_C3 :
    create_index 10 (Except.ok cexDocEmbedder) demoIndexText 5 2
        "text-search-doc" 0 = some (Except.ok cexIndexC3)
    ∧ cexIndexC3.metadata.embedding_dimension = 0
    ∧ cexIndexC3.documents.map Document.embedding = [[], [1, 2]]
    ∧ ¬ (∀ doc ∈ cexIndexC3.documents, doc.embedding ≠ [] →
          doc.embedding.length = cexIndexC3.metadata.embedding_dimension) :=
  ⟨rfl, rfl, rfl, by decide⟩

/-- The dimension invariant holds for the documents built by `create_index`
whenever the first chunk's embedding call succeeded and all successful
embeddings share the length `d`. -/
theorem dim_invariant_of_first_ok (emb : DocEmbedder) (d : ℕ)
    (hdim : ∀ s v u, emb s = Except.ok (v, u) → v.length = d)
    (chunks : List (List Char)) (tok0 : ℕ)
    (hfirst : ∀ doc,
      (mkDocuments chunks (embedLoop emb (chunks.map String.mk) tok0).1).head?
          = some doc → doc.embedding ≠ []) :
    ∀ doc ∈ mkDocuments chunks (embedLoop emb (chunks.map String.mk) tok0).1,
      doc.embedding ≠ [] →
      doc.embedding.length =
        embeddingDimension (embedLoop emb (chunks.map String.mk) tok0).1 := by
  intro doc hdoc hne
  have hmem : doc.embedding ∈ (embedLoop emb (chunks.map String.mk) tok0).1 :=
    mkDocuments_embedding_mem chunks _ doc hdoc
  have hlen : doc.embedding.length = d := by
    rcases embedLoop_mem emb _ _ _ hmem with h | ⟨s, u, hsu⟩
    · exact absurd h hne
    · exact hdim s _ u hsu
  cases hch : chunks with
  | nil =>
    subst hch
    simp [mkDocuments] at hdoc
  | cons c cs =>
    subst hch
    have hlenE := embedLoop_length emb ((c :: cs).map String.mk) tok0
    rw [List.length_map] at hlenE
    cases hembs : (embedLoop emb ((c :: cs).map String.mk) tok0).1 with
    | nil =>
      rw [hembs] at hlenE
      simp at hlenE
    | cons e0 erest =>
      have hhead :
          (mkDocuments (c :: cs)
            (embedLoop emb ((c :: cs).map String.mk) tok0).1).head?
            = some { id := 0, text := String.mk c, embedding := e0,
                     char_start := (((c :: cs).take 0).map List.length).sum,
                     char_end := (((c :: cs).take 1).map List.length).sum } := by
        rw [hembs]
        rfl
      have he0 : e0 ≠ [] := hfirst _ hhead
      have he0len : e0.length = d := by
        have he0mem : e0 ∈ (embedLoop emb ((c :: cs).map String.mk) tok0).1 := by
          rw [hembs]
          exact List.mem_cons_self _ _
        rcases embedLoop_mem emb _ _ _ he0mem with h | ⟨s, u, hsu⟩
        · exact absurd h he0
        · exact hdim s _ u hsu
      rw [embeddingDimension, if_pos he0, he0len, hlen]

/-- C3 (amended): `embedding_dimension` equals the length of the *first*
passage's embedding when that embedding is non-empty and is 0 otherwise (not
the length of the first *successful* embedding); consequently the invariant
that every non-empty embedding has length `embedding_dimension` holds for
every index produced by `create_index` in which the first passage's
embedding call succeeded (its recorded embedding is non-empty) and all
successful embedding calls return vectors of one common length — but not,
as the counterexample shows, when the first passage's call failed. -/
theorem create_index_dimension_C3 (fuel : ℕ) (emb : DocEmbedder)
    (text : List Char) (chunk_size overlap : ℕ) (model : String) (tok0 : ℕ)
    (idx : Index) (d : ℕ)
    (hrun : create_index fuel (Except.ok emb) text chunk_size overlap model
      tok0 = some (Except.ok idx))
    (hdim : ∀ s v u, emb s = Except.ok (v, u) → v.length = d)
    (hfirst : ∀ doc, idx.documents.head? = some doc → doc.embedding ≠ []) :
    ∀ doc ∈ idx.documents, doc.embedding ≠ [] →
      doc.embedding.length = idx.metadata.embedding_dimension := by
  cases hsplit : split_text_into_chunks fuel text chunk_size overlap with
  | none =>
    rw [create_index, hsplit] at hrun
    simp at hrun
  | some chunks =>
    rw [create_index, hsplit] at hrun
    simp only [generate_embeddings, Option.some.injEq] at hrun
    have hidx := (Except.ok.inj hrun).symm
    subst hidx
    exact dim_invariant_of_first_ok emb d hdim chunks tok0 hfirst

/-- C3 witness: the amended theorem applied to an embedder that succeeds on
every chunk with a vector of length 2. -/
theorem create_index_dimension_witness_C3 :
    create_index 10 (Except.ok okDocEmbedder) demoIndexText 5 2
        "text-search-doc" 0 = some (Except.ok okIndexC3)
    ∧ ∀ doc ∈ okIndexC3.documents, doc.embedding ≠ [] →
        doc.embedding.length = okIndexC3.metadata.embedding_dimension :=
  ⟨rfl,
   create_index_dimension_C3 10 okDocEmbedder demoIndexText 5 2
     "text-search-doc" 0 okIndexC3 2 rfl
     (fun s v u h => by
       injection h with h2
       injection h2 with h3 h4
       subst h3
       rfl)
     (fun doc h => by
       injection h with h3
       subst h3
       decide)⟩

/-- C4 counterexample: a well-formed JSON artifact that lacks every
index field (`documents`, `metadata`, and all per-passage fields) is
returned by `load_index` as a successfully loaded value — no parse/format
error is raised and no validation happens before the value is handed to the
caller (the same holds for `_load_index`, which is the same `json.load`
call), so the claim as stated is false at this input. -/
theorem load_index_no_validation_cex_C4 :
    load_index (some malformedArtifact) = Except.ok malformedArtifact
    ∧ malformedArtifact.getField "documents" = none
    ∧ malformedArtifact.getField "metadata" = none
    ∧ indexOfJson malformedArtifact = none :=
  ⟨rfl, rfl, rfl, rfl⟩

/-- C4 (amended): `load_index` (and `_load_index`) fail with a parse error
exactly when the artifact is not valid JSON text; any well-formed JSON
value — structurally valid for an index or not — is returned as parsed,
without any validation of required fields and without constructing any
Passage value. -/
theorem load_index_parse_only_C4 :
    (∀ j : Json, load_index (some j) = Except.ok j)
    ∧ load_index none = Except.error LoadErr.parseError :=
  ⟨fun _ => rfl, rfl⟩

/-- C5: save followed by load restores every index value field for field —
the metadata, the ordered document list, and every embedding vector with its
exact (rational-modelled) float components. -/
theorem save_load_roundtrip_C5 (idx : Index) :
    indexOfJson (save_index idx) = some idx := by
  have h1 : (save_index idx).getField "metadata"
      = some (metadataToJson idx.metadata) := rfl
  have h2 : (save_index idx).getField "documents"
      = some (Json.arr (idx.documents.map documentToJson)) := rfl
  have hdocs : (Json.arr (idx.documents.map documentToJson)).asArrWith
      documentOfJson = some idx.documents := by
    rw [Json.asArrWith]
    exact mapM_map_some documentToJson documentOfJson documentOfJson_toJson
      idx.documents
  simp only [indexOfJson, h1, h2, hdocs, metadataOfJson_toJson,
    Option.some_bind]

/-- A successful `generate_answer` call records exactly the context chunks it
was given. -/
theorem generate_answer_context (compSvc : CompletionSvc)
    (renderSim : Sim → String) (query : String)
    (context_chunks : List ScoredChunk) (model : String) (temperature : ℚ)
    (max_tokens : ℕ) (r : AskResult)
    (h : generate_answer compSvc renderSim query context_chunks model
      temperature max_tokens = Except.ok r) :
    r.context_chunks = context_chunks := by
  rw [generate_answer] at h
  cases hc : compSvc model temperature max_tokens
      (rag_prompt renderSim query context_chunks) with
  | error e =>
    rw [hc] at h
    simp at h
  | ok cr =>
    rw [hc] at h
    simp only [] at h
    cases hca : cr.alternatives with
    | nil =>
      rw [hca] at h
      simp at h
    | cons a rest =>
      rw [hca] at h
      simp only [Except.ok.injEq] at h
      rw [← h]

/-- C6: the two-stage retrieval of `ask_with_filter` truncates the ranked
list to its first `min k (number of passages with a non-empty embedding)`
entries, then keeps the entries passing the threshold as an
order-preserving sublist of that truncation; consequently every chunk that
reaches the generation context comes from the first `k` entries of the
ranked list, whatever the threshold. -/
theorem two_stage_retrieval_C6 (embedSvc : QueryEmbedder)
    (compSvc : CompletionSvc) (renderSim : Sim → String)
    (docs : List Document) (t : ℚ) (query : String) (k : ℕ) (model : String)
    (temperature : ℚ) (qe : List ℚ)
    (hq : embedSvc query = Except.ok qe) :
    ((ranked18 qe docs).take k).length
        = min k ((docs.filter (fun d => !d.embedding.isEmpty)).length)
    ∧ List.Sublist (filter_by_relevance t ((ranked18 qe docs).take k))
        ((ranked18 qe docs).take k)
    ∧ (∀ res, ask_with_filter embedSvc compSvc renderSim docs t query k model
          temperature = Except.ok res →
        ∀ c ∈ res.context_chunks, ∃ p ∈ (ranked18 qe docs).take k,
          c = { id := p.1.id, text := p.1.text, similarity := p.2,
                char_start := p.1.char_start, char_end := p.1.char_end }) := by
  refine ⟨?_, List.filter_sublist _, ?_⟩
  · rw [List.length_take, ranked18, (sortByKeyDesc_perm _ _).length_eq,
      scored_chunks18, List.length_map]
  · intro res hres c hc
    simp only [ask_with_filter, generate_query_embedding, hq] at hres
    cases hfe : (filter_by_relevance t ((ranked18 qe docs).take k)).isEmpty with
    | true =>
      rw [hfe] at hres
      simp only [if_true] at hres
      cases han : _answer_without_context compSvc query with
      | error e =>
        rw [han] at hres
        simp at hres
      | ok a =>
        rw [han] at hres
        simp only [Except.ok.injEq] at hres
        rw [← hres] at hc
        simp at hc
    | false =>
      rw [hfe] at hres
      simp only [Bool.false_eq_true, if_false] at hres
      cases hga : generate_answer compSvc renderSim query
          (toContextChunks (filter_by_relevance t ((ranked18 qe docs).take k)))
          model temperature 2000 with
      | error e =>
        rw [hga] at hres
        simp at hres
      | ok r =>
        rw [hga] at hres
        simp only [Except.ok.injEq] at hres
        have hctx := generate_answer_context _ _ _ _ _ _ _ _ hga
        rw [← hres] at hc
        simp only at hc
        rw [hctx, toContextChunks] at hc
        rcases List.mem_map.mp hc with ⟨p, hp, rfl⟩
        exact ⟨p, List.mem_of_mem_filter hp, rfl⟩

/-- C6 witness: the two-stage theorem applied at a concrete query embedding
and document list. -/
theorem two_stage_retrieval_witness_C6 :
    okEmbedSvc "вопрос" = Except.ok [1, 0]
    ∧ ((ranked18 [1, 0] demoDocs).take 1).length
        = min 1 ((demoDocs.filter (fun d => !d.embedding.isEmpty)).length) :=
  ⟨rfl, (two_stage_retrieval_C6 okEmbedSvc okCompSvc constRender demoDocs
      (1 / 2) "вопрос" 1 "yandexgpt" (3 / 10) [1, 0] rfl).1⟩

/-- C7: before truncation, `search_relevant_chunks` scores exactly the
passages with a non-empty embedding (passages with empty embeddings are
omitted, never scored as zero) and returns them sorted non-increasing by
similarity, with equal similarities (equal comparison keys, i.e. equal real
similarity values) ordered by ascending passage id — given the data-model
invariant that the index's passage ids are strictly increasing. -/
theorem rank_sorted_C7 (qe : List ℚ) (docs : List Document)
    (hids : docs.Pairwise (fun a b => a.id < b.id)) :
    (rank_chunks qe docs).Perm (scored_chunks qe docs)
    ∧ (∀ c, c ∈ rank_chunks qe docs ↔
        ∃ d ∈ docs, d.embedding ≠ [] ∧ c = mkScored qe d)
    ∧ (rank_chunks qe docs).Pairwise (fun x y =>
        y.similarity.key ≤ x.similarity.key
        ∧ (x.similarity.key = y.similarity.key → x.id < y.id)) := by
  have hperm : (rank_chunks qe docs).Perm (scored_chunks qe docs) :=
    sortByKeyDesc_perm _ _
  refine ⟨hperm, ?_, ?_⟩
  · intro c
    rw [hperm.mem_iff, scored_chunks]
    constructor
    · intro hcm
      rcases List.mem_map.mp hcm with ⟨d, hd, rfl⟩
      have hdf := List.mem_filter.mp hd
      refine ⟨d, hdf.1, ?_, rfl⟩
      simpa using hdf.2
    · rintro ⟨d, hd, hne, rfl⟩
      exact List.mem_map_of_mem _
        (List.mem_filter.mpr ⟨hd, by simpa using hne⟩)
  · have hsc : (scored_chunks qe docs).Pairwise (fun x y => x.id < y.id) := by
      rw [scored_chunks, List.pairwise_map]
      exact List.Pairwise.sublist (List.filter_sublist _) hids
    exact sortByKeyDesc_pairwise (fun c : ScoredChunk => c.similarity.key)
      (fun x y : ScoredChunk => x.id < y.id) _ hsc

/-- C7 witness: the ranking theorem applied to the concrete document list
(ascending ids discharged by computation). -/
theorem rank_sorted_witness_C7 :
    demoDocs.Pairwise (fun a b => a.id < b.id)
    ∧ (rank_chunks [1, 0] demoDocs).Perm (scored_chunks [1, 0] demoDocs) :=
  ⟨by decide, (rank_sorted_C7 [1, 0] demoDocs (by decide)).1⟩

/-- C8: cosine similarity is symmetric (the exact representations are
literally equal, hence so are the real values), returns exactly 0.0 when
either argument has zero norm (zero norm iff zero sum of squares), and its
divisor squared is positive in every other case, so no division by zero
occurs for any input. -/
theorem cosine_similarity_props_C8 (a b : List ℚ) (h : a.length = b.length) :
    _cosine_similarity a b = _cosine_similarity b a
    ∧ (sumSq a = 0 ∨ sumSq b = 0 →
        _cosine_similarity a b = ⟨0, 1⟩ ∧
        ((_cosine_similarity a b).num : ℝ) /
          Real.sqrt (((_cosine_similarity a b).dsq : ℚ) : ℝ) = 0)
    ∧ 0 < (_cosine_similarity a b).dsq := by
  have hdot : dotQ a b = dotQ b a := dotQ_comm a b
  refine ⟨?_, ?_, ?_⟩
  · by_cases hz : sumSq a = 0 ∨ sumSq b = 0
    · rw [_cosine_similarity, if_pos hz, _cosine_similarity, if_pos hz.symm]
    · rw [_cosine_similarity, if_neg hz, _cosine_similarity,
        if_neg (fun hz2 => hz hz2.symm)]
      rw [hdot, mul_comm]
  · intro hz
    have he : _cosine_similarity a b = ⟨0, 1⟩ := by
      rw [_cosine_similarity, if_pos hz]
    refine ⟨he, ?_⟩
    rw [he]
    simp
  · by_cases hz : sumSq a = 0 ∨ sumSq b = 0
    · rw [_cosine_similarity, if_pos hz]
      norm_num
    · rw [_cosine_similarity, if_neg hz]
      push_neg at hz
      have h1 : 0 < sumSq a := lt_of_le_of_ne (sumSq_nonneg a) (Ne.symm hz.1)
      have h2 : 0 < sumSq b := lt_of_le_of_ne (sumSq_nonneg b) (Ne.symm hz.2)
      exact mul_pos h1 h2

/-- C8 witness: symmetry applied at the concrete vectors `[1, 2]` and
`[3, 4]` of equal length. -/
theorem cosine_similarity_witness_C8 :
    ([1, 2] : List ℚ).length = ([3, 4] : List ℚ).length
    ∧ _cosine_similarity [1, 2] [3, 4] = _cosine_similarity [3, 4] [1, 2] :=
  ⟨by decide, (cosine_similarity_props_C8 [1, 2] [3, 4] (by decide)).1⟩

/-- C9: when every retrieved chunk is filtered out, `ask_with_filter` does
not fail: it sends the fallback prompt (which admits the absence of
source-grounded information) to the completion service and returns a result
whose answer is the service's text — non-empty whenever that text is — with
zero used passages. -/
theorem fallback_on_empty_filter_C9 (embedSvc : QueryEmbedder)
    (compSvc : CompletionSvc) (renderSim : Sim → String)
    (docs : List Document) (t : ℚ) (query : String) (k : ℕ) (model : String)
    (temperature : ℚ) (qe : List ℚ) (ans : String) (alts : List String)
    (u : Option UsageRaw)
    (hq : embedSvc query = Except.ok qe)
    (hempty : filter_by_relevance t ((ranked18 qe docs).take k) = [])
    (hcomp : compSvc "yandexgpt" (3 / 10) 500 (fallback_prompt query) =
      Except.ok ⟨ans :: alts, u⟩)
    (hans : ans ≠ "") :
    ∃ res, ask_with_filter embedSvc compSvc renderSim docs t query k model
        temperature = Except.ok res
      ∧ res.answer = ans ∧ res.answer ≠ "" ∧ res.context_chunks = [] := by
  have hawc : _answer_without_context compSvc query = Except.ok ans := by
    rw [_answer_without_context, hcomp]
  have hmain : ask_with_filter embedSvc compSvc renderSim docs t query k model
      temperature = Except.ok
        { answer := ans, context_chunks := [], relevance_scores := [],
          filtered_out := ((ranked18 qe docs).take k).length,
          usage := ⟨0, 0, 0⟩,
          warning := some ("Все " ++ toString ((ranked18 qe docs).take k).length
            ++ " фрагментов отфильтрованы (порог " ++ toString t ++ ")"),
          threshold_used := none, model := none, temperature := none } := by
    simp only [ask_with_filter, generate_query_embedding, hq, hempty,
      List.isEmpty_nil, if_true, hawc]
  exact ⟨_, hmain, rfl, hans, rfl⟩

/-- C9 witness: both scored chunks fall below the threshold 2, and the
fallback path returns the completion service's non-empty text with zero
used passages. -/
theorem fallback_witness_C9 :
    (okEmbedSvc "вопрос" = Except.ok [1, 0]
     ∧ filter_by_relevance 2 ((ranked18 [1, 0] demoDocs).take 5) = []
     ∧ okCompSvc "yandexgpt" (3 / 10) 500 (fallback_prompt "вопрос")
         = Except.ok ⟨["нет данных в документе"], some ⟨100, 50, 150⟩⟩)
    ∧ ∃ res, ask_with_filter okEmbedSvc okCompSvc constRender demoDocs 2
          "вопрос" 5 "yandexgpt" (3 / 10) = Except.ok res
        ∧ res.answer = "нет данных в документе" ∧ res.answer ≠ ""
        ∧ res.context_chunks = [] := by
  have hempty : filter_by_relevance 2 ((ranked18 [1, 0] demoDocs).take 5)
      = [] := by
    norm_num [filter_by_relevance, ranked18, sortByKeyDesc, scored_chunks18,
      demoDocs, _cosine_similarity, sumSq, dotQ, Sim.geQ, Sim.key,
      List.insertionSort, List.orderedInsert, List.filter, List.take]
  exact ⟨⟨rfl, hempty, rfl⟩,
    fallback_on_empty_filter_C9 okEmbedSvc okCompSvc constRender demoDocs 2
      "вопрос" 5 "yandexgpt" (3 / 10) [1, 0] "нет данных в документе" []
      (some ⟨100, 50, 150⟩) rfl hempty rfl (by decide)⟩

/-- C10: on the all-filtered-out path, `ask_with_filter` reports usage of
exactly zero tokens even though the fallback completion call really ran and
reported usage `u`, which `_answer_without_context` discards (it returns
only the text of the first alternative). -/
theorem fallback_zero_usage_C10 (embedSvc : QueryEmbedder)
    (compSvc : CompletionSvc) (renderSim : Sim → String)
    (docs : List Document) (t : ℚ) (query : String) (k : ℕ) (model : String)
    (temperature : ℚ) (qe : List ℚ) (ans : String) (alts : List String)
    (u : Option UsageRaw)
    (hq : embedSvc query = Except.ok qe)
    (hempty : filter_by_relevance t ((ranked18 qe docs).take k) = [])
    (hcomp : compSvc "yandexgpt" (3 / 10) 500 (fallback_prompt query) =
      Except.ok ⟨ans :: alts, u⟩) :
    ∃ res, ask_with_filter embedSvc compSvc renderSim docs t query k model
        temperature = Except.ok res
      ∧ res.usage.prompt_tokens = 0 ∧ res.usage.completion_tokens = 0
      ∧ res.usage.total_tokens = 0 := by
  have hawc : _answer_without_context compSvc query = Except.ok ans := by
    rw [_answer_without_context, hcomp]
  have hmain : ask_with_filter embedSvc compSvc renderSim docs t query k model
      temperature = Except.ok
        { answer := ans, context_chunks := [], relevance_scores := [],
          filtered_out := ((ranked18 qe docs).take k).length,
          usage := ⟨0, 0, 0⟩,
          warning := some ("Все " ++ toString ((ranked18 qe docs).take k).length
            ++ " фрагментов отфильтрованы (порог " ++ toString t ++ ")"),
          threshold_used := none, model := none, temperature := none } := by
    simp only [ask_with_filter, generate_query_embedding, hq, hempty,
      List.isEmpty_nil, if_true, hawc]
  exact ⟨_, hmain, rfl, rfl, rfl⟩

/-- C10 witness: the fallback completion call reports 100 prompt, 50
completion and 150 total tokens, yet the returned usage is all zeros. -/
theorem fallback_zero_usage_witness_C10 :
    (okEmbedSvc "вопрос" = Except.ok [1, 0]
     ∧ filter_by_relevance 2 ((ranked18 [1, 0] demoDocs).take 5) = []
     ∧ okCompSvc "yandexgpt" (3 / 10) 500 (fallback_prompt "вопрос")
         = Except.ok ⟨["нет данных в документе"], some ⟨100, 50, 150⟩⟩)
    ∧ ∃ res, ask_with_filter okEmbedSvc okCompSvc constRender demoDocs 2
          "вопрос" 5 "yandexgpt" (3 / 10) = Except.ok res
        ∧ res.usage.prompt_tokens = 0 ∧ res.usage.completion_tokens = 0
        ∧ res.usage.total_tokens = 0 := by
  have hempty : filter_by_relevance 2 ((ranked18 [1, 0] demoDocs).take 5)
      = [] := by
    norm_num [filter_by_relevance, ranked18, sortByKeyDesc, scored_chunks18,
      demoDocs, _cosine_similarity, sumSq, dotQ, Sim.geQ, Sim.key,
      List.insertionSort, List.orderedInsert, List.filter, List.take]
  exact ⟨⟨rfl, hempty, rfl⟩,
    fallback_zero_usage_C10 okEmbedSvc okCompSvc constRender demoDocs 2
      "вопрос" 5 "yandexgpt" (3 / 10) [1, 0] "нет данных в документе" []
      (some ⟨100, 50, 150⟩) rfl hempty rfl⟩
